import Mathlib

/-!
# Verification of the kiali-qe entity-normalization core

A shallow embedding, in Lean 4, of the data-reconciliation layer of the
kiali-qe-python test suite: the validation-severity aggregator, the overview
health bucketing, the pod-grouping engine of `workload_details`, the
Istio-config filter engine, the adapter/template normalizer, the detail-query
not-found handling (`kiali_qe/rest/kiali_api.py`), the `Overview` entity with
its two-tier equality (`kiali_qe/entities/overview.py`), and
`delete_istio_config` of the cluster adapter (`kiali_qe/rest/openshift_api.py`).

External collaborators (the REST transport, the cluster client, the date and
linearization helpers living outside the embedded modules) enter as explicit
parameters: each embedded function receives the raw documents or helper
functions its Python original fetched or imported.  Python dictionaries become
structures, absent-or-falsy documents become `Option`, and a `TypeError` or
`AttributeError` raised by the interpreter becomes an explicit error value.
-/

set_option autoImplicit false

namespace KialiQE

/-! ## Enumerations (`kiali_qe/components/enums.py`) -/

/-- `HealthType` of `components/enums.py`: NA = 'N/A', HEALTHY = 'Healthy',
FAILURE = 'Failure', DEGRADED = 'Degraded'. -/
inductive HealthType where
  | NA
  | HEALTHY
  | FAILURE
  | DEGRADED
deriving DecidableEq, Repr

/-- `IstioConfigValidation` of `components/enums.py`: NA = 'N/A',
VALID = 'Valid', WARNING = 'Warning', NOT_VALID = 'Not Valid'. -/
inductive IstioConfigValidation where
  | NA
  | VALID
  | WARNING
  | NOT_VALID
deriving DecidableEq, Repr

/-! ## Validation aggregator (`kiali_api.py`, `get_istio_config_validation`) -/

/-- One entry of the validation document's `checks` array. -/
structure Check where
  severity : String
  message : String
deriving DecidableEq, Repr

/-- `KialiExtendedClient.get_istio_config_validation` (kiali_api.py 699-720),
with the `get_validation` sub-call's result passed in: `none` models a falsy
`_health_data` (absent or empty validation document).  When the document is
present: non-empty `checks` with any `severity == 'error'` gives NOT_VALID,
non-empty without an error gives WARNING, empty `checks` gives VALID;
an absent document gives NA. -/
def get_istio_config_validation (health_data : Option (List Check)) :
    IstioConfigValidation :=
  match health_data with
  | some checks =>
    if checks.length > 0 then
      if checks.any (fun check => check.severity == "error") then
        IstioConfigValidation.NOT_VALID
      else
        IstioConfigValidation.WARNING
    else
      IstioConfigValidation.VALID
  | none => IstioConfigValidation.NA

/-! ## Overview entity (`entities/overview.py`) and health bucketing -/

/-- The `Overview` record as `Overview.__init__` (overview.py 6-12) actually
stores it: `overview_type`, `namespace`, `items`, `healthy`, `unhealthy`,
`degraded`.  There is no `na` attribute. -/
structure Overview where
  overview_type : String
  namespace_ : String
  items : Nat
  healthy : Nat
  unhealthy : Nat
  degraded : Nat
deriving DecidableEq, Repr

/-- The keyword arguments supplied to `Overview(...)` at the call site in
`overview_list` (kiali_api.py 118-125): besides the three positional-style
fields it passes `healthy`, `unhealthy`, `degraded` and `na`. -/
structure OverviewKwargs where
  overview_type : String
  namespace_ : String
  items : Nat
  healthy : Option Nat
  unhealthy : Option Nat
  degraded : Option Nat
  na : Option Nat
deriving DecidableEq, Repr

/-- `Overview.__init__` (overview.py 6-12) as called with keyword arguments.
Its parameter list is `(overview_type, namespace, items, healthy=0,
unhealthy=0, degraded=0)`; passing the keyword `na` is a `TypeError`
(unexpected keyword argument), modelled as `none`. -/
def Overview.init (kw : OverviewKwargs) : Option Overview :=
  if kw.na.isSome then
    none
  else
    some { overview_type := kw.overview_type
           namespace_ := kw.namespace_
           items := kw.items
           healthy := kw.healthy.getD 0
           unhealthy := kw.unhealthy.getD 0
           degraded := kw.degraded.getD 0 }

/-- The four counters accumulated by the loop of `overview_list`
(kiali_api.py 105-117). -/
structure Buckets where
  healthy : Nat
  unhealthy : Nat
  degraded : Nat
  na : Nat
deriving DecidableEq, Repr

/-- One step of the bucketing loop: four independent `if` statements compare
`_item.health` against the four `HealthType` members.  A health value that is
none of the four (the per-item health fetch returns Python `None` when the
health document is absent, modelled as `none`) increments no counter. -/
def bucketStep (b : Buckets) (health : Option HealthType) : Buckets :=
  let b := if health = some HealthType.HEALTHY then
    { b with healthy := b.healthy + 1 } else b
  let b := if health = some HealthType.DEGRADED then
    { b with degraded := b.degraded + 1 } else b
  let b := if health = some HealthType.FAILURE then
    { b with unhealthy := b.unhealthy + 1 } else b
  let b := if health = some HealthType.NA then
    { b with na := b.na + 1 } else b
  b

/-- The bucketing pass of `overview_list` (kiali_api.py 105-117) over the
health values of one namespace's items. -/
def bucketHealth (healths : List (Option HealthType)) : Buckets :=
  healths.foldl bucketStep ⟨0, 0, 0, 0⟩

/-- The body of `overview_list` for one namespace (kiali_api.py 105-126):
bucket the items' healths, then construct `Overview(overview_type=...,
namespace=..., items=len(_items), healthy=..., unhealthy=..., degraded=...,
na=_na)`. -/
def overview_list_entry (overview_type namespace_ : String)
    (healths : List (Option HealthType)) : Option Overview :=
  let b := bucketHealth healths
  Overview.init
    { overview_type := overview_type
      namespace_ := namespace_
      items := healths.length
      healthy := some b.healthy
      unhealthy := some b.unhealthy
      degraded := some b.degraded
      na := some b.na }

/-- `overview_list` (kiali_api.py 85-127) over the per-namespace item healths
already fetched: one `Overview` construction per namespace. -/
def overview_list (overview_type : String)
    (data : List (String × List (Option HealthType))) : List (Option Overview) :=
  data.map (fun entry => overview_list_entry overview_type entry.1 entry.2)

/-- `Overview.is_equal` (overview.py 28-46) between two `Overview` records
(the `isinstance` test passes): the basic check compares `overview_type`,
`namespace` and `items`; with `advanced_check` it additionally compares
`healthy`, `unhealthy` and `degraded`. -/
def Overview.is_equal (a b : Overview) (advanced_check : Bool) : Bool :=
  if a.overview_type ≠ b.overview_type then false
  else if a.namespace_ ≠ b.namespace_ then false
  else if a.items ≠ b.items then false
  else if advanced_check then
    if a.healthy ≠ b.healthy then false
    else if a.unhealthy ≠ b.unhealthy then false
    else if a.degraded ≠ b.degraded then false
    else true
  else true

/-! ## Pod grouping engine (`kiali_api.py`, `workload_details` 569-600) -/

/-- The `WorkloadPod` entity as constructed in `workload_details`
(kiali_api.py 558-567 and 579-600). -/
structure WorkloadPod where
  name : String
  created_at : String
  created_by : String
  labels : List (String × String)
  istio_init_containers : String
  istio_containers : String
  status : IstioConfigValidation
  phase : String
deriving DecidableEq, Repr

/-- Python `name[:-5]`: the string without its last five characters (empty
when the string has five or fewer). -/
def dropLast5 (s : String) : String :=
  ⟨s.toList.take (s.toList.length - 5)⟩

/-- `itertools.groupby(_all_pods, key=get_created_by)` (kiali_api.py 574):
the maximal adjacent runs of pods sharing `created_by`, each with its key,
in encounter order.  The algorithm does not re-sort, so non-adjacent runs of
the same owner yield separate groups. -/
def groupRuns : List WorkloadPod → List (String × List WorkloadPod)
  | [] => []
  | p :: rest =>
    match groupRuns rest with
    | [] => [(p.created_by, [p])]
    | (k, g) :: tl =>
      if p.created_by = k then (k, p :: g) :: tl
      else (p.created_by, [p]) :: (k, g) :: tl

/-- The group row built in the `len(_workload_pods) > 1` branch
(kiali_api.py 579-589).  `stale` is the Python variable `_pod` as it stands
when the branch runs: it was last assigned either by the pod-construction
loop (so it is the final pod of `_all_pods`) or by a previous iteration of
the grouping loop (so it is the previous group's synthetic row); the branch
reads `_pod.name` and `_pod.created_at` from it.  The other fields come from
the first pod of the group, and the second `created_at` component from the
last pod of the group. -/
def multiPodRow (stale : WorkloadPod) (created_by : String)
    (first : WorkloadPod) (g : List WorkloadPod) : WorkloadPod :=
  { name := dropLast5 stale.name ++ "... (" ++ toString g.length ++ " replicas)"
    created_at := stale.created_at ++ " and " ++ (g.getLastD first).created_at
    created_by := created_by
    labels := first.labels
    istio_init_containers := first.istio_init_containers
    istio_containers := first.istio_containers
    status := first.status
    phase := first.phase }

/-- The group row built in the `len(_workload_pods) == 1` branch
(kiali_api.py 590-600): every field from the single pod, the name suffixed
with ' (1 replica)'. -/
def singlePodRow (created_by : String) (only : WorkloadPod) : WorkloadPod :=
  { name := only.name ++ " (1 replica)"
    created_at := only.created_at
    created_by := created_by
    labels := only.labels
    istio_init_containers := only.istio_init_containers
    istio_containers := only.istio_containers
    status := only.status
    phase := only.phase }

/-- The grouping loop of `workload_details` (kiali_api.py 572-600), with the
Python variable `_pod` threaded through explicitly: each group of size one
or more appends one row to `_pods` and reassigns `_pod` to that row.
`itertools.groupby` never yields an empty group, so the empty-group case
emits nothing. -/
def groupPodsAux : WorkloadPod → List (String × List WorkloadPod) →
    List WorkloadPod
  | _, [] => []
  | pod, (k, g) :: rest =>
    match g with
    | [] => groupPodsAux pod rest
    | [only] =>
      let row := singlePodRow k only
      row :: groupPodsAux row rest
    | first :: second :: tail =>
      let row := multiPodRow pod k first (first :: second :: tail)
      row :: groupPodsAux row rest

/-- The `_pods` list of `workload_details` (kiali_api.py 547-600): group
`_all_pods` by `created_by` and collapse each group to one row.  When
`_all_pods` is non-empty the Python variable `_pod` enters the grouping loop
holding the last pod built by the construction loop (kiali_api.py 558-567);
when it is empty the loop never runs. -/
def workload_details_pods (all_pods : List WorkloadPod) : List WorkloadPod :=
  match all_pods with
  | [] => []
  | p :: rest => groupPodsAux ((p :: rest).getLastD p) (groupRuns (p :: rest))

/-! ## Substring matching (Python `needle in haystack` on strings) -/

/-- Character-list substring test: some contiguous run of `hay` equals
`needle`. -/
def charsSub : List Char → List Char → Bool
  | needle, [] => needle.isEmpty
  | needle, c :: rest => needle.isPrefixOf (c :: rest) || charsSub needle rest

/-- Python `needle in hay` for strings: substring containment. -/
def substrOf (needle hay : String) : Bool :=
  charsSub needle.toList hay.toList

/-! ## Istio-config filter engine (`kiali_api.py`, `istio_config_list`) -/

/-- One caller-supplied filter: a `{name, value}` pair (the `name` is the
filter kind, e.g. 'Istio Type'). -/
structure Filter where
  name : String
  value : String
deriving DecidableEq, Repr

/-- The common shape of the `IstioConfig` and `Rule` entities that
`istio_config_list` filters on: both carry `name`, `namespace` and the
(possibly composite) `object_type` string. -/
structure ConfigItem where
  name : String
  namespace_ : String
  object_type : String
deriving DecidableEq, Repr

/-- A Python runtime error raised by the embedded code. -/
inductive PyErr where
  | attributeError
  | typeError
deriving DecidableEq, Repr

/-- Attribute access on the `IstioConfigPageFilter` enum of
components/enums.py (lines 204-207), whose only members are ISTIO_TYPE
('Istio Type'), ISTIO_NAME ('Istio Name') and CONFIG ('Config'): the member's
text, or `none` (Python raises AttributeError) when no member of that name is
declared.  In particular `IstioConfigPageFilter.NAMESPACE`, accessed at
kiali_api.py line 213, does not exist. -/
def IstioConfigPageFilter.member : String → Option String
  | "ISTIO_TYPE" => some "Istio Type"
  | "ISTIO_NAME" => some "Istio Name"
  | "CONFIG" => some "Config"
  | _ => none

/-- The three filter-value lists the parsing loop of `istio_config_list`
(kiali_api.py 209-218) accumulates. -/
structure FiltersAcc where
  namespaces : List String
  istio_names : List String
  istio_types : List String
deriving DecidableEq, Repr

/-- One iteration of the filter-parsing loop (kiali_api.py 212-218).  Each
branch first evaluates `FILTER_TYPE.<MEMBER>.text`; the first one,
`FILTER_TYPE.NAMESPACE.text`, raises AttributeError because the enum has no
NAMESPACE member, so the loop body can never complete. -/
def istio_filter_step (acc : FiltersAcc) (f : Filter) : Except PyErr FiltersAcc :=
  match IstioConfigPageFilter.member "NAMESPACE" with
  | none => Except.error PyErr.attributeError
  | some nsText =>
    if substrOf nsText f.name then
      Except.ok { acc with namespaces := acc.namespaces ++ [f.value] }
    else
      match IstioConfigPageFilter.member "ISTIO_NAME" with
      | none => Except.error PyErr.attributeError
      | some nameText =>
        if substrOf nameText f.name then
          Except.ok { acc with istio_names := acc.istio_names ++ [f.value] }
        else
          match IstioConfigPageFilter.member "ISTIO_TYPE" with
          | none => Except.error PyErr.attributeError
          | some typeText =>
            if substrOf typeText f.name then
              Except.ok { acc with istio_types := acc.istio_types ++ [f.value] }
            else
              Except.ok acc

/-- The filter-parsing loop of `istio_config_list` (kiali_api.py 208-218). -/
def parse_istio_filters (filters : List Filter) : Except PyErr FiltersAcc :=
  filters.foldlM istio_filter_step ⟨[], [], []⟩

/-- `name_filtered_list` of kiali_api.py 339-340: for each name filter value,
extend with the items whose `name` contains it.  Items carry their list index
so that Python's object-identity `set` semantics is preserved. -/
def name_filtered_list (istio_names : List String)
    (xs : List (Nat × ConfigItem)) : List (Nat × ConfigItem) :=
  istio_names.flatMap (fun n => xs.filter (fun x => substrOf n x.2.name))

/-- `type_filtered_list` of kiali_api.py 341-342: for each type filter value,
extend with the items whose `object_type` contains it. -/
def type_filtered_list (istio_types : List String)
    (xs : List (Nat × ConfigItem)) : List (Nat × ConfigItem) :=
  istio_types.flatMap (fun t => xs.filter (fun x => substrOf t x.2.object_type))

/-- The filter-application tail of `istio_config_list` (kiali_api.py
335-351) over the items gathered for the selected namespaces, as a set of
(index, item) identities: with both kinds present the two `set`s are
intersected (the UI applies AND across filter kinds), with one kind present
that kind's `set` is returned, and with no filter every item is kept (the
source returns the plain list; order is immaterial to the set semantics
stated here). -/
def apply_istio_filters (istio_names istio_types : List String)
    (items : List ConfigItem) : Finset (Nat × ConfigItem) :=
  let xs := items.enum
  if 0 < istio_names.length ∨ 0 < istio_types.length then
    if 0 < istio_names.length ∧ 0 < istio_types.length then
      (name_filtered_list istio_names xs).toFinset ∩
        (type_filtered_list istio_types xs).toFinset
    else if 0 < istio_names.length then
      (name_filtered_list istio_names xs).toFinset
    else
      (type_filtered_list istio_types xs).toFinset
  else xs.toFinset

/-- `istio_config_list` (kiali_api.py 201-351) restricted to its filter
pipeline: parse the supplied filters (raising AttributeError on the first
iteration, since `FILTER_TYPE.NAMESPACE` does not exist), then apply the
name/type filters to the items fetched for the selected namespaces. -/
def istio_config_list_filters (filters : List Filter) (items : List ConfigItem) :
    Except PyErr (Finset (Nat × ConfigItem)) :=
  (parse_istio_filters filters).map
    (fun acc => apply_istio_filters acc.istio_names acc.istio_types items)

/-! ## Adapter/template normalization (kiali_api.py 246-261) -/

/-- `IstioConfigObjectType.ADAPTER.text` (components/enums.py line 218). -/
def OBJECT_TYPE_ADAPTER : String := "Adapter"

/-- `IstioConfigObjectType.TEMPLATE.text` (components/enums.py line 219). -/
def OBJECT_TYPE_TEMPLATE : String := "Template"

/-- Python `'{0}: {1}'.format(category, sub)` as used for the composite
object_type string. -/
def composite (category sub : String) : String :=
  category ++ ": " ++ sub

/-- One raw entry of the upstream `adapters` array: its metadata name and its
`adapter` sub-kind. -/
structure AdapterEntry where
  metadata_name : String
  adapter : String
deriving DecidableEq, Repr

/-- One raw entry of the upstream `templates` array. -/
structure TemplateEntry where
  metadata_name : String
  template : String
deriving DecidableEq, Repr

/-- The `adapters` branch of `istio_config_list` (kiali_api.py 246-252): each
entry becomes a `Rule` whose object_type is `'ADAPTER.text: <adapter>'`. -/
def normalize_adapters (namespace_ : String) (adapters : List AdapterEntry) :
    List ConfigItem :=
  adapters.map (fun a =>
    { name := a.metadata_name
      namespace_ := namespace_
      object_type := composite OBJECT_TYPE_ADAPTER a.adapter })

/-- The `templates` branch of `istio_config_list` (kiali_api.py 254-261). -/
def normalize_templates (namespace_ : String) (templates : List TemplateEntry) :
    List ConfigItem :=
  templates.map (fun t =>
    { name := t.metadata_name
      namespace_ := namespace_
      object_type := composite OBJECT_TYPE_TEMPLATE t.template })

/-! ## Cluster adapter deletion (`openshift_api.py`, `delete_istio_config`) -/

/-- An error raised by the dynamic cluster client's resource operations. -/
inductive K8sError where
  | notFound
  | serverError (code : Nat)
deriving DecidableEq, Repr

/-- `OpenshiftExtendedClient.delete_istio_config` (openshift_api.py 351-356),
with the underlying client's `delete` passed in as a function of the call's
`(name, namespace, kind, api_version)`: the body is one delete call wrapped
in `try ... except NotFoundError: pass`, so a not-found outcome is swallowed
and the method returns normally, while any other outcome propagates. -/
def delete_istio_config
    (delete : String → String → String → String → Except K8sError Unit)
    (name namespace_ kind api_version : String) : Except K8sError Unit :=
  match delete name namespace_ kind api_version with
  | Except.error K8sError.notFound => Except.ok ()
  | r => r

/-! ## Shared normalization helpers (kiali_api.py 741-759) -/

/-- `get_labels` (kiali_api.py 741-745): the object's `labels` mapping, or an
empty mapping when the key is absent (`none`). -/
def get_labels (labels : Option (List (String × String))) :
    List (String × String) :=
  labels.getD []

/-- One port entry of an upstream service document. -/
structure PortDoc where
  protocol : String
  name : String
  port : Nat
deriving DecidableEq, Repr

/-- The ports summary built at kiali_api.py 485-489 (and 526-531): for each
port one `'<protocol><space+name if named> (<port>) '` token, concatenated,
then stripped. -/
def formatPorts (ports : List PortDoc) : String :=
  (ports.foldl
    (fun acc p =>
      acc ++ p.protocol ++ (if p.name ≠ "" then " " ++ p.name else "") ++
        " (" ++ toString p.port ++ ") ")
    "").trim

/-- One entry of a destination rule's `subsets` array: `name` and `labels`
may each be absent. -/
structure SubsetDoc where
  name : Option String
  labels : Option (List (String × String))
deriving DecidableEq, Repr

/-- `get_subset_labels` (kiali_api.py 747-759): for every subset carrying
both `name` and `labels`, one `(name, [<key><value>, ...])` association; a
falsy `subsets` yields no entries.  Upstream subset names are unique, so the
dict insertion order is association order. -/
def get_subset_labels (subsets : Option (List SubsetDoc)) :
    List (String × List String) :=
  match subsets with
  | none => []
  | some l =>
    l.foldl
      (fun acc s =>
        match s.name, s.labels with
        | some n, some lbls => acc ++ [(n, lbls.map (fun kv => kv.1 ++ kv.2))]
        | _, _ => acc)
      []

/-! ## Istio-config details (kiali_api.py 353-407) -/

/-- The raw config document found under one of the seven category keys of an
`istioConfigDetails` response. -/
structure IstioDetailsData where
  metadata_name : String
deriving DecidableEq, Repr

/-- An `istioConfigDetails` response envelope: `objectType` plus one
possibly-null document per category key. -/
structure IstioDetailsDoc where
  objectType : String
  destinationRule : Option IstioDetailsData
  rule : Option IstioDetailsData
  virtualService : Option IstioDetailsData
  quotaSpec : Option IstioDetailsData
  quotaSpecBinding : Option IstioDetailsData
  gateway : Option IstioDetailsData
  serviceEntry : Option IstioDetailsData
deriving DecidableEq, Repr

/-- The `IstioConfigDetails` entity built at kiali_api.py 397-406 (`text` is
the selected raw document, which the source serializes with `json.dumps`). -/
structure IstioConfigDetails where
  name : String
  config_type : String
  text : IstioDetailsData
  validation : IstioConfigValidation
  error_messages : List String
deriving DecidableEq, Repr

/-- The `config_data` selection of `istio_config_details` (kiali_api.py
366-396): seven successive `if _data['<key>']:` statements each overwrite
`config_data` when their key holds a truthy document, so the last truthy key
in source order wins; `config_data` stays `None` when every key is null. -/
def pickConfigData (d : IstioDetailsDoc) : Option IstioDetailsData :=
  let c : Option IstioDetailsData := none
  let c := if d.destinationRule.isSome then d.destinationRule else c
  let c := if d.rule.isSome then d.rule else c
  let c := if d.virtualService.isSome then d.virtualService else c
  let c := if d.quotaSpec.isSome then d.quotaSpec else c
  let c := if d.quotaSpecBinding.isSome then d.quotaSpecBinding else c
  let c := if d.gateway.isSome then d.gateway else c
  let c := if d.serviceEntry.isSome then d.serviceEntry else c
  c

/-- `get_istio_config_messages` (kiali_api.py 722-739), the validation
document passed in: the `message` of every check, empty when the document is
absent or has no checks. -/
def get_istio_config_messages (health_data : Option (List Check)) :
    List String :=
  match health_data with
  | none => []
  | some checks => checks.map (fun c => c.message)

/-- `istio_config_details` (kiali_api.py 353-407), the upstream response and
the two validation sub-responses passed in (`none` models a falsy `_data`):
`config` starts as `None` and is only replaced when the envelope is truthy
and some category key holds a document, so an absent or all-null response
yields `none` and never an exception. -/
def istio_config_details (_data : Option IstioDetailsDoc)
    (validation_doc messages_doc : Option (List Check)) :
    Option IstioConfigDetails :=
  match _data with
  | none => none
  | some d =>
    match pickConfigData d with
    | none => none
    | some config_data =>
      some { name := config_data.metadata_name
             config_type := d.objectType
             text := config_data
             validation := get_istio_config_validation validation_doc
             error_messages := get_istio_config_messages messages_doc }

/-! ## Service details (kiali_api.py 409-507) -/

/-- One route destination of a virtual-service spec: `subset`, `port` and
`status` may each be absent from the document. -/
structure RouteDestDoc where
  host : String
  subset : Option String
  port_number : Option Nat
  status : Option String
deriving DecidableEq, Repr

/-- One weighted route: `weight` is `none` when the key is absent. -/
structure RouteDoc where
  destination : RouteDestDoc
  weight : Option Nat
deriving DecidableEq, Repr

/-- The `VirtualServiceWeight` entity (kiali_api.py 448-458). -/
structure VirtualServiceWeight where
  host : String
  subset : Option String
  port : Option Nat
  status : Option String
  weight : Option Nat
deriving DecidableEq, Repr

/-- One route's `VirtualServiceWeight` (kiali_api.py 448-458): optional
destination sub-fields pass through, and the weight is kept only when the
key is present and the value is not exactly 0. -/
def route_weight (r : RouteDoc) : VirtualServiceWeight :=
  { host := r.destination.host
    subset := r.destination.subset
    port := r.destination.port_number
    status := r.destination.status
    weight :=
      match r.weight with
      | some w => if w ≠ 0 then some w else none
      | none => none }

/-- One item of a `virtualServices` array.  `http0_route` is
`spec.http[0].route` (kiali_api.py 447 indexes `[0]` unconditionally:
upstream always supplies at least one http block). -/
structure VSDoc where
  metadata_name : String
  metadata_namespace : String
  creationTimestamp : String
  resourceVersion : String
  hosts : List String
  http0_route : List RouteDoc
deriving DecidableEq, Repr

/-- The `VirtualService` entity (kiali_api.py 459-468). -/
structure VirtualService where
  status : IstioConfigValidation
  name : String
  created_at : String
  resource_version : String
  hosts : List String
  weights : List VirtualServiceWeight
deriving DecidableEq, Repr

/-- One item of a `destinationRules` array.  `trafficPolicy` is the raw
nested value handed to the external `to_linear_string` helper. -/
structure DRDoc where
  metadata_name : String
  metadata_namespace : String
  creationTimestamp : String
  resourceVersion : String
  host : String
  trafficPolicy : String
  subsets : Option (List SubsetDoc)
deriving DecidableEq, Repr

/-- The `DestinationRule` entity (kiali_api.py 473-484). -/
structure DestinationRule where
  status : IstioConfigValidation
  name : String
  host : String
  traffic_policy : String
  subsets : String
  created_at : String
  resource_version : String
deriving DecidableEq, Repr

/-- One entry of a service detail's `workloads` array. -/
structure WorkloadEntryDoc where
  name : String
  workload_type : String
  labels : Option (List (String × String))
  createdAt : String
  resourceVersion : String
deriving DecidableEq, Repr

/-- The `WorkloadDetails` row nested in a service detail (kiali_api.py
427-432). -/
structure WorkloadDetailsRow where
  name : String
  workload_type : String
  labels : List (String × String)
  created_at : String
  resource_version : String
deriving DecidableEq, Repr

/-- The `SourceWorkload` entity (kiali_api.py 439-441); its Python keyword
argument `to` is a reserved word in Lean, rendered `to_`. -/
structure SourceWorkload where
  to_ : String
  workloads : List String
deriving DecidableEq, Repr

/-- The `service` sub-document of a `serviceDetails` response (the raw key
`type` is rendered `service_type`). -/
structure ServiceInnerDoc where
  name : String
  createdAt : String
  resourceVersion : String
  service_type : String
  ip : String
  ports : List PortDoc
  labels : Option (List (String × String))
deriving DecidableEq, Repr

/-- A `serviceDetails` response.  `dependencies` is the upstream
target → [{name}] mapping with the inner objects' `name` fields already
drawn out; an empty list models a falsy section. -/
structure ServiceDoc where
  service : ServiceInnerDoc
  workloads : List WorkloadEntryDoc
  dependencies : List (String × List String)
  virtualServices : List VSDoc
  destinationRules : List DRDoc
deriving DecidableEq, Repr

/-- The `ServiceDetails` entity built at kiali_api.py 490-506. -/
structure ServiceDetails where
  name : String
  istio_sidecar : Bool
  created_at : String
  resource_version : String
  service_type : String
  ip : String
  ports : String
  labels : List (String × String)
  health : Option HealthType
  workloads : List WorkloadDetailsRow
  source_workloads : List SourceWorkload
  virtual_services : List VirtualService
  destination_rules : List DestinationRule
deriving DecidableEq, Repr

/-- `service_details` (kiali_api.py 409-507).  External collaborators are
passed in: `parse_from_rest` (the date helper), `get_validation_doc` (the
per-config validation sub-response, by namespace and name), `to_linear_tp`
and `to_linear_sub` (the `to_linear_string` helper on traffic policies and
subset labels), the `istio_sidecar` flag recovered through `service_list`,
and the service health sub-response.  `_service` starts as `None` and is
only replaced when `_service_data` is truthy, so an absent or empty upstream
document yields `none` and never an exception. -/
def service_details (parse_from_rest : String → String)
    (get_validation_doc : String → String → Option (List Check))
    (to_linear_tp : String → String)
    (to_linear_sub : List (String × List String) → String)
    (_service_data : Option ServiceDoc) (istio_sidecar : Bool)
    (health : Option HealthType) : Option ServiceDetails :=
  match _service_data with
  | none => none
  | some sd =>
    let workloads := sd.workloads.map (fun w =>
      { name := w.name
        workload_type := w.workload_type
        labels := get_labels w.labels
        created_at := parse_from_rest w.createdAt
        resource_version := w.resourceVersion : WorkloadDetailsRow })
    let source_workloads := sd.dependencies.map (fun dep =>
      { to_ := dep.1, workloads := dep.2 : SourceWorkload })
    let virtual_services := sd.virtualServices.map (fun vs =>
      { status := get_istio_config_validation
          (get_validation_doc vs.metadata_namespace vs.metadata_name)
        name := vs.metadata_name
        created_at := parse_from_rest vs.creationTimestamp
        resource_version := vs.resourceVersion
        hosts := vs.hosts
        weights := vs.http0_route.map route_weight : VirtualService })
    let destination_rules := sd.destinationRules.map (fun dr =>
      { status := get_istio_config_validation
          (get_validation_doc dr.metadata_namespace dr.metadata_name)
        name := dr.metadata_name
        host := dr.host
        traffic_policy := to_linear_tp dr.trafficPolicy
        subsets := to_linear_sub (get_subset_labels dr.subsets)
        created_at := parse_from_rest dr.creationTimestamp
        resource_version := dr.resourceVersion : DestinationRule })
    some { name := sd.service.name
           istio_sidecar := istio_sidecar
           created_at := parse_from_rest sd.service.createdAt
           resource_version := sd.service.resourceVersion
           service_type := sd.service.service_type
           ip := sd.service.ip
           ports := formatPorts sd.service.ports
           labels := get_labels sd.service.labels
           health := health
           workloads := workloads
           source_workloads := source_workloads
           virtual_services := virtual_services
           destination_rules := destination_rules }

/-! ## Workload details (kiali_api.py 509-618) -/

/-- One entry of a workload detail's `services` array. -/
structure WServiceDoc where
  name : String
  createdAt : String
  service_type : String
  ip : String
  ports : List PortDoc
  labels : Option (List (String × String))
  resourceVersion : String
deriving DecidableEq, Repr

/-- The `ServiceDetails` row nested in a workload detail (kiali_api.py
532-539), built with this subset of keyword arguments. -/
structure ServiceDetailsRow where
  name : String
  created_at : String
  service_type : String
  ip : String
  ports : String
  labels : List (String × String)
  resource_version : String
deriving DecidableEq, Repr

/-- One entry of a workload detail's `destinationServices` array. -/
structure DSDoc where
  name : String
  namespace_ : String
deriving DecidableEq, Repr

/-- The `DestinationService` entity (kiali_api.py 543-546). -/
structure DestinationService where
  _from : String
  name : String
  namespace_ : String
deriving DecidableEq, Repr

/-- One entry of a workload detail's `pods` array.  `createdBy_name` and
`createdBy_kind` are `createdBy[0].name` and `createdBy[0].kind`
(kiali_api.py 556-557 indexes `[0]` unconditionally: upstream always
supplies an owner reference); `istioContainers` and `istioInitContainers`
hold the container images; `status` is the pod phase. -/
structure PodDoc where
  name : String
  createdAt : String
  createdBy_name : String
  createdBy_kind : String
  istioContainers : List String
  istioInitContainers : List String
  labels : Option (List (String × String))
  versionLabel : Bool
  appLabel : Bool
  status : String
deriving DecidableEq, Repr

/-- `get_pod_status` (kiali_api.py 770-774): WARNING when the workload has no
sidecar or the pod lacks the version or app label, VALID otherwise. -/
def get_pod_status (istioSidecar : Bool) (pd : PodDoc) : IstioConfigValidation :=
  if ¬ istioSidecar ∨ ¬ pd.versionLabel ∨ ¬ pd.appLabel then
    IstioConfigValidation.WARNING
  else
    IstioConfigValidation.VALID

/-- One iteration of the pod-construction loop (kiali_api.py 549-567): the
first istio container image or `''`, the `'<name> (<kind>)'` created_by
string, and the pod status. -/
def build_pod (from_rest_to_ui : String → String) (istioSidecar : Bool)
    (pd : PodDoc) : WorkloadPod :=
  { name := pd.name
    created_at := from_rest_to_ui pd.createdAt
    created_by := pd.createdBy_name ++ " (" ++ pd.createdBy_kind ++ ")"
    labels := get_labels pd.labels
    istio_init_containers := pd.istioInitContainers.headD ""
    istio_containers := pd.istioContainers.headD ""
    status := get_pod_status istioSidecar pd
    phase := pd.status }

/-- A `workloadDetails` response (the raw key `type` is rendered
`workload_type`). -/
structure WorkloadDoc where
  name : String
  workload_type : String
  createdAt : String
  resourceVersion : String
  istioSidecar : Bool
  labels : Option (List (String × String))
  services : List WServiceDoc
  destinationServices : List DSDoc
  pods : List PodDoc
deriving DecidableEq, Repr

/-- The top-level `WorkloadDetails` entity built at kiali_api.py 602-617. -/
structure WorkloadDetails where
  name : String
  istio_sidecar : Bool
  workload_type : String
  created_at : String
  resource_version : String
  health : Option HealthType
  labels : List (String × String)
  pods_number : Nat
  services_number : Nat
  destination_services_number : Nat
  destination_services : List DestinationService
  pods : List WorkloadPod
  services : List ServiceDetailsRow
deriving DecidableEq, Repr

/-- `workload_details` (kiali_api.py 509-618); the date helpers, the
`istio_sidecar` flag recovered through `workload_list` and the workload
health sub-response are passed in.  `_workload` starts as `None` and is only
replaced when `_workload_data` is truthy, so an absent or empty upstream
document yields `none` and never an exception; a truthy document has its
pods built, grouped by `created_by` and collapsed per group. -/
def workload_details (parse_from_rest from_rest_to_ui : String → String)
    (workload_name : String) (_workload_data : Option WorkloadDoc)
    (istio_sidecar : Bool) (health : Option HealthType) :
    Option WorkloadDetails :=
  match _workload_data with
  | none => none
  | some wd =>
    let services := wd.services.map (fun s =>
      { name := s.name
        created_at := parse_from_rest s.createdAt
        service_type := s.service_type
        ip := s.ip
        ports := formatPorts s.ports
        labels := get_labels s.labels
        resource_version := s.resourceVersion : ServiceDetailsRow })
    let destination_services := wd.destinationServices.map (fun d =>
      { _from := workload_name
        name := d.name
        namespace_ := d.namespace_ : DestinationService })
    let all_pods := wd.pods.map (build_pod from_rest_to_ui wd.istioSidecar)
    let pods := workload_details_pods all_pods
    some { name := wd.name
           istio_sidecar := istio_sidecar
           workload_type := wd.workload_type
           created_at := parse_from_rest wd.createdAt
           resource_version := wd.resourceVersion
           health := health
           labels := get_labels wd.labels
           pods_number := pods.length
           services_number := services.length
           destination_services_number := destination_services.length
           destination_services := destination_services
           pods := pods
           services := services }

/-! ## Application details (kiali_api.py 620-652) -/

/-- One entry of an `appDetails` response's `workloads` array. -/
structure AppWorkloadDoc where
  workloadName : String
  istioSidecar : Bool
deriving DecidableEq, Repr

/-- An `appDetails` response; `serviceNames` is `none` when the key is
absent. -/
structure AppDoc where
  name : String
  workloads : List AppWorkloadDoc
  serviceNames : Option (List String)
deriving DecidableEq, Repr

/-- The `AppWorkload` entity (kiali_api.py 637-639). -/
structure AppWorkload where
  name : String
  istio_sidecar : Bool
deriving DecidableEq, Repr

/-- The `ApplicationDetails` entity built at kiali_api.py 644-651. -/
structure ApplicationDetails where
  name : String
  istio_sidecar : Bool
  health : Option HealthType
  workloads : List AppWorkload
  services : List String
deriving DecidableEq, Repr

/-- `application_details` (kiali_api.py 620-652); the `istio_sidecar` flag
recovered through `application_list` and the app health sub-response are
passed in.  `_application` starts as `None` and is only replaced when
`_application_data` is truthy, so an absent or empty upstream document
yields `none` and never an exception. -/
def application_details (_application_data : Option AppDoc)
    (istio_sidecar : Bool) (health : Option HealthType) :
    Option ApplicationDetails :=
  match _application_data with
  | none => none
  | some ad =>
    some { name := ad.name
           istio_sidecar := istio_sidecar
           health := health
           workloads := ad.workloads.map (fun w =>
             { name := w.workloadName, istio_sidecar := w.istioSidecar })
           services := ad.serviceNames.getD [] }

/-! ## Concrete example data -/

/-- A pod record with the given name, creation time and owner, all remaining
fields fixed. -/
def examplePod (n ca cb : String) : WorkloadPod :=
  { name := n
    created_at := ca
    created_by := cb
    labels := []
    istio_init_containers := ""
    istio_containers := ""
    status := IstioConfigValidation.VALID
    phase := "Running" }

/-- Five pods whose `created_by` sequence is `[A, A, A, B, B]`, matching the
spec's pod-grouping example.  Names end in a five-character suffix, creation
times are T1..T5. -/
def fivePods : List WorkloadPod :=
  [examplePod "p1-11111" "T1" "A",
   examplePod "p2-22222" "T2" "A",
   examplePod "p3-33333" "T3" "A",
   examplePod "p4-44444" "T4" "B",
   examplePod "p5-55555" "T5" "B"]

/-- The spec's filter-engine candidate set: one Gateway named `foobar` and
one VirtualService named `foobar`. -/
def exampleConfigItems : List ConfigItem :=
  [{ name := "foobar", namespace_ := "bookinfo", object_type := "Gateway" },
   { name := "foobar", namespace_ := "bookinfo", object_type := "VirtualService" }]

/-! ## Claim theorems -/

/-- C1.  The overview health bucketing cannot produce the record the claim
describes: `Overview.__init__` accepts no `na` keyword, so the construction
at the end of `overview_list` raises `TypeError` for every namespace
(modelled as `none`), and an item whose health is none of the four
recognized enum values increments no counter at all rather than the NA
counter. -/
theorem overview_list_na_keyword_raises (overview_type namespace_ : String)
    (healths : List (Option HealthType)) :
    overview_list_entry overview_type namespace_ healths = none ∧
    overview_list overview_type [(namespace_, healths)] = [none] ∧
    bucketStep ⟨0, 0, 0, 0⟩ none = ⟨0, 0, 0, 0⟩ :=
  ⟨rfl, rfl, by decide⟩

/-- C2 counterexample.  A present validation document with an empty `checks`
array yields VALID, not the NA the claim states. -/
theorem get_istio_config_validation_empty_checks_valid :
    get_istio_config_validation (some []) = IstioConfigValidation.VALID ∧
    IstioConfigValidation.VALID ≠ IstioConfigValidation.NA := by
  decide

/-- C2 (amended).  The validation verdict is NA when the validation document
is absent, VALID when the document is present with an empty `checks` array,
and WARNING when `checks` is non-empty and contains no entry with severity
'error'. -/
theorem get_istio_config_validation_verdicts (cs : List Check)
    (h_nonempty : cs ≠ [])
    (h_no_error : cs.any (fun c => c.severity == "error") = false) :
    get_istio_config_validation none = IstioConfigValidation.NA ∧
    get_istio_config_validation (some []) = IstioConfigValidation.VALID ∧
    get_istio_config_validation (some cs) = IstioConfigValidation.WARNING := by
  refine ⟨rfl, rfl, ?_⟩
  cases cs with
  | nil => exact absurd rfl h_nonempty
  | cons c rest => simp [get_istio_config_validation, h_no_error]

/-- C2 witness: the amended verdict theorem at the one-warning document. -/
theorem get_istio_config_validation_verdicts_witness :
    get_istio_config_validation none = IstioConfigValidation.NA ∧
    get_istio_config_validation (some []) = IstioConfigValidation.VALID ∧
    get_istio_config_validation (some [⟨"warning", "m"⟩]) =
      IstioConfigValidation.WARNING :=
  get_istio_config_validation_verdicts [⟨"warning", "m"⟩] (by decide) (by decide)

/-- C3.  A `checks` array containing at least one entry of severity 'error'
(hence non-empty) yields NOT_VALID, however many non-error entries
accompany it. -/
theorem get_istio_config_validation_error_priority (cs : List Check)
    (h_error : cs.any (fun c => c.severity == "error") = true) :
    get_istio_config_validation (some cs) = IstioConfigValidation.NOT_VALID := by
  cases cs with
  | nil => simp at h_error
  | cons c rest => simp [get_istio_config_validation, h_error]

/-- C3 witness: one error among two non-error checks. -/
theorem get_istio_config_validation_error_priority_witness :
    get_istio_config_validation
      (some [⟨"warning", "w"⟩, ⟨"error", "e"⟩, ⟨"info", "i"⟩]) =
      IstioConfigValidation.NOT_VALID :=
  get_istio_config_validation_error_priority
    [⟨"warning", "w"⟩, ⟨"error", "e"⟩, ⟨"info", "i"⟩] (by decide)

/-- C7.  `Overview.is_equal` with `advanced_check=True` implies
`Overview.is_equal` with `advanced_check=False`: the advanced check performs
every basic comparison before the health-count comparisons. -/
theorem Overview.is_equal_advanced_implies_basic (a b : Overview)
    (h : a.is_equal b true = true) : a.is_equal b false = true := by
  unfold Overview.is_equal at h ⊢
  split_ifs at h ⊢ <;> simp_all

/-- C7 witness: advanced equality of one concrete pair implies its basic
equality. -/
theorem Overview.is_equal_advanced_implies_basic_witness :
    Overview.is_equal ⟨"Apps", "bookinfo", 3, 1, 1, 1⟩
      ⟨"Apps", "bookinfo", 3, 1, 1, 1⟩ false = true :=
  Overview.is_equal_advanced_implies_basic
    ⟨"Apps", "bookinfo", 3, 1, 1, 1⟩ ⟨"Apps", "bookinfo", 3, 1, 1, 1⟩
    (by decide)

/-- C9.  Every adapter or template entry is normalized to the composite
object_type string `'<Category>: <subkind>'`; in particular an adapters
entry with `adapter: 'prometheus'` yields exactly `'Adapter: prometheus'`. -/
theorem normalize_adapters_templates_composite (namespace_ : String)
    (adapters : List AdapterEntry) (templates : List TemplateEntry) :
    (normalize_adapters namespace_ adapters).map ConfigItem.object_type =
      adapters.map (fun a => OBJECT_TYPE_ADAPTER ++ ": " ++ a.adapter) ∧
    (normalize_templates namespace_ templates).map ConfigItem.object_type =
      templates.map (fun t => OBJECT_TYPE_TEMPLATE ++ ": " ++ t.template) ∧
    normalize_adapters "bookinfo" [⟨"myhandler", "prometheus"⟩] =
      [{ name := "myhandler", namespace_ := "bookinfo",
         object_type := "Adapter: prometheus" }] := by
  refine ⟨?_, ?_, by decide⟩ <;>
    simp [normalize_adapters, normalize_templates, composite]

/-- C10.  When the underlying dynamic client raises `NotFoundError` for the
`(name, namespace, kind, api_version)` being deleted, `delete_istio_config`
returns normally. -/
theorem delete_istio_config_not_found_returns_normally
    (delete : String → String → String → String → Except K8sError Unit)
    (name namespace_ kind api_version : String)
    (h : delete name namespace_ kind api_version =
      Except.error K8sError.notFound) :
    delete_istio_config delete name namespace_ kind api_version =
      Except.ok () := by
  unfold delete_istio_config
  rw [h]

/-- C10 witness: deleting an absent Gateway returns normally. -/
theorem delete_istio_config_not_found_returns_normally_witness :
    delete_istio_config (fun _ _ _ _ => Except.error K8sError.notFound)
      "gw" "bookinfo" "Gateway" "networking.istio.io/v1alpha3" =
      Except.ok () :=
  delete_istio_config_not_found_returns_normally
    (fun _ _ _ _ => Except.error K8sError.notFound)
    "gw" "bookinfo" "Gateway" "networking.istio.io/v1alpha3" rfl

/-- C8.  Every detail query returns `none` — never an exception — when the
upstream detail document is absent or empty: the four queries on a falsy
response, and `istio_config_details` on a present envelope with every
category key null. -/
theorem detail_queries_absent_give_none
    (parse_from_rest from_rest_to_ui : String → String)
    (get_validation_doc : String → String → Option (List Check))
    (to_linear_tp : String → String)
    (to_linear_sub : List (String × List String) → String)
    (validation_doc messages_doc : Option (List Check))
    (workload_name objectType : String)
    (istio_sidecar : Bool) (health : Option HealthType) :
    istio_config_details none validation_doc messages_doc = none ∧
    istio_config_details
      (some ⟨objectType, none, none, none, none, none, none, none⟩)
      validation_doc messages_doc = none ∧
    service_details parse_from_rest get_validation_doc to_linear_tp
      to_linear_sub none istio_sidecar health = none ∧
    workload_details parse_from_rest from_rest_to_ui workload_name none
      istio_sidecar health = none ∧
    application_details none istio_sidecar health = none :=
  ⟨rfl, rfl, rfl, rfl, rfl⟩

/-- C4.  On the `[A, A, A, B, B]` pod sequence the size-3 group row and the
size-2 group row both draw their name and first `created_at` component from
the stale loop variable `_pod` — the last pod of the whole list for the
first group, the previous synthetic row for the second — not from their own
group's first member: the size-2 row's `created_at` is `'T5 and T3 and T5'`
where the claim requires `'T4 and T5'`, and its name truncates the first
synthetic row's name instead of a member pod's name. -/
theorem workload_details_pods_stale_variable :
    (workload_details_pods fivePods).map (fun p => (p.name, p.created_at)) =
      [("p5-... (3 replicas)", "T5 and T3"),
       ("p5-... (3 repl... (2 replicas)", "T5 and T3 and T5")] ∧
    (("T5 and T3 and T5" : String) == "T4 and T5") = false ∧
    (("T5 and T3" : String) == "T1 and T3") = false := by
  decide

/-- C6.  `istio_config_list` given the spec's two filters raises
`AttributeError` before any filtering: line 213 reads
`IstioConfigPageFilter.NAMESPACE`, a member the enum does not declare.  The
filter-application phase itself (kiali_api.py 336-351), run on the parsed
name/type values the loop was meant to produce, does keep exactly the
Gateway and drop the VirtualService. -/
theorem istio_config_list_filters_attribute_error :
    istio_config_list_filters
      [⟨"Istio Type", "Gateway"⟩, ⟨"Istio Name", "foo"⟩] exampleConfigItems =
      Except.error PyErr.attributeError ∧
    apply_istio_filters ["foo"] ["Gateway"] exampleConfigItems =
      {(0, { name := "foobar", namespace_ := "bookinfo",
             object_type := "Gateway" })} :=
  ⟨rfl, by decide⟩

/-! ## Grouping lemmas (toward C5) -/

/-- Grouping a non-empty pod list yields at least one run. -/
theorem groupRuns_cons_ne (p : WorkloadPod) (rest : List WorkloadPod) :
    groupRuns (p :: rest) ≠ [] := by
  simp only [groupRuns]
  cases h : groupRuns rest with
  | nil => simp
  | cons hd tl =>
    obtain ⟨k, g⟩ := hd
    by_cases hp : p.created_by = k <;> simp [hp]

/-- The runs concatenate back to the input: no pod is dropped, duplicated or
reordered by the grouping. -/
theorem groupRuns_flatMap (ps : List WorkloadPod) :
    (groupRuns ps).flatMap Prod.snd = ps := by
  induction ps with
  | nil => rfl
  | cons p rest ih =>
    simp only [groupRuns]
    cases h : groupRuns rest with
    | nil =>
      have hr : rest = [] := by
        cases rest with
        | nil => rfl
        | cons q r => exact absurd h (groupRuns_cons_ne q r)
      subst hr
      simp
    | cons hd tl =>
      obtain ⟨k, g⟩ := hd
      rw [h] at ih
      by_cases hp : p.created_by = k <;> simp_all

/-- There are at most as many runs as pods. -/
theorem groupRuns_length_le (ps : List WorkloadPod) :
    (groupRuns ps).length ≤ ps.length := by
  induction ps with
  | nil => simp [groupRuns]
  | cons p rest ih =>
    simp only [groupRuns]
    cases h : groupRuns rest with
    | nil => simp
    | cons hd tl =>
      obtain ⟨k, g⟩ := hd
      rw [h] at ih
      simp only [List.length_cons] at ih
      by_cases hp : p.created_by = k <;> simp [hp] <;> omega

/-- Every run is non-empty and all of its pods share the run's key. -/
theorem groupRuns_groups (ps : List WorkloadPod) :
    ∀ e ∈ groupRuns ps, e.2 ≠ [] ∧ ∀ q ∈ e.2, q.created_by = e.1 := by
  induction ps with
  | nil => simp [groupRuns]
  | cons p rest ih =>
    simp only [groupRuns]
    cases h : groupRuns rest with
    | nil =>
      intro e he
      rcases List.mem_singleton.mp he with rfl
      refine ⟨by simp, ?_⟩
      intro q hq
      rcases List.mem_singleton.mp hq with rfl
      rfl
    | cons hd tl =>
      obtain ⟨k, g⟩ := hd
      rw [h] at ih
      by_cases hp : p.created_by = k
      · simp only [hp, if_true]
        intro e he
        rcases List.mem_cons.mp he with rfl | he'
        · refine ⟨by simp, ?_⟩
          intro q hq
          rcases List.mem_cons.mp hq with rfl | hq'
          · exact hp
          · exact (ih (k, g) (List.mem_cons_self _ _)).2 q hq'
        · exact ih e (List.mem_cons_of_mem _ he')
      · simp only [hp, if_false]
        intro e he
        rcases List.mem_cons.mp he with rfl | he'
        · refine ⟨by simp, ?_⟩
          intro q hq
          rcases List.mem_singleton.mp hq with rfl
          rfl
        · exact ih e he'

/-- Adjacent runs carry distinct keys: each run is maximal, so a key
reappears in the run list only for non-adjacent repetitions of the owner. -/
theorem groupRuns_chain (ps : List WorkloadPod) :
    List.Chain' (fun a b => a.1 ≠ b.1) (groupRuns ps) := by
  induction ps with
  | nil => simp [groupRuns]
  | cons p rest ih =>
    simp only [groupRuns]
    cases h : groupRuns rest with
    | nil => simp
    | cons hd tl =>
      obtain ⟨k, g⟩ := hd
      rw [h] at ih
      by_cases hp : p.created_by = k
      · simp only [hp, if_true]
        rw [List.chain'_cons'] at ih ⊢
        exact ⟨ih.1, ih.2⟩
      · simp only [hp, if_false]
        exact List.chain'_cons.mpr ⟨hp, ih⟩

/-- The grouping loop emits exactly one row per non-empty run, carrying that
run's key as its `created_by`, whatever the threaded `_pod` value. -/
theorem groupPodsAux_map_created_by (runs : List (String × List WorkloadPod))
    (h : ∀ e ∈ runs, e.2 ≠ []) :
    ∀ pod, (groupPodsAux pod runs).map WorkloadPod.created_by =
      runs.map Prod.fst := by
  induction runs with
  | nil => intro pod; rfl
  | cons hd tl ih =>
    intro pod
    obtain ⟨k, g⟩ := hd
    have htl : ∀ e ∈ tl, e.2 ≠ [] := fun e he => h e (List.mem_cons_of_mem _ he)
    cases g with
    | nil => exact absurd rfl (h (k, []) (List.mem_cons_self _ _))
    | cons first g' =>
      cases g' with
      | nil =>
        simp only [groupPodsAux, List.map_cons]
        rw [ih htl]
        rfl
      | cons second tail =>
        simp only [groupPodsAux, List.map_cons]
        rw [ih htl]
        rfl

/-- The output rows' `created_by` values are the run keys in order. -/
theorem workload_details_pods_map_created_by (ps : List WorkloadPod) :
    (workload_details_pods ps).map WorkloadPod.created_by =
      (groupRuns ps).map Prod.fst := by
  cases ps with
  | nil => rfl
  | cons p rest =>
    exact groupPodsAux_map_created_by (groupRuns (p :: rest))
      (fun e he => (groupRuns_groups (p :: rest) e he).1) _

/-- One output row per run. -/
theorem workload_details_pods_length (ps : List WorkloadPod) :
    (workload_details_pods ps).length = (groupRuns ps).length := by
  have hmap := congrArg List.length (workload_details_pods_map_created_by ps)
  simpa using hmap

/-- C5.  The pod grouping forms exactly one output row per maximal adjacent
run of equal `created_by`: the runs concatenate back to the input (no pod
dropped), each run is non-empty with all members sharing its key, adjacent
runs have distinct keys, the rows carry the run keys in first-seen order,
the output size equals the number of runs and never exceeds the input size;
the `[A, A, A, B, B]` sequence yields exactly the runs A (size 3) and B
(size 2), and a single pod yields one row named `'<name> (1 replica)'`. -/
theorem workload_details_pods_grouping (ps : List WorkloadPod) :
    (groupRuns ps).flatMap Prod.snd = ps ∧
    (∀ e ∈ groupRuns ps, e.2 ≠ [] ∧ ∀ q ∈ e.2, q.created_by = e.1) ∧
    List.Chain' (fun a b => a.1 ≠ b.1) (groupRuns ps) ∧
    (workload_details_pods ps).map WorkloadPod.created_by =
      (groupRuns ps).map Prod.fst ∧
    (workload_details_pods ps).length = (groupRuns ps).length ∧
    (workload_details_pods ps).length ≤ ps.length ∧
    (groupRuns fivePods).map (fun e => (e.1, e.2.length)) =
      [("A", 3), ("B", 2)] ∧
    (workload_details_pods [examplePod "px" "T1" "X"]).map WorkloadPod.name =
      ["px (1 replica)"] := by
  refine ⟨groupRuns_flatMap ps, groupRuns_groups ps, groupRuns_chain ps,
    workload_details_pods_map_created_by ps, workload_details_pods_length ps,
    ?_, by decide, by decide⟩
  calc (workload_details_pods ps).length
      = (groupRuns ps).length := workload_details_pods_length ps
    _ ≤ ps.length := groupRuns_length_le ps

end KialiQE
